import Mathlib

/-!
Verification of the credential rotation and OAuth lifecycle core of the
LLM-API-Key-Proxy repository, as a shallow embedding in Lean 4.

The Python dictionaries of the source are embedded as association lists
with Python dict update semantics (assignment replaces in place, `pop`
removes, missing keys give `none`).  Time is embedded as natural-number
seconds (epoch) and milliseconds where the source stores milliseconds;
the float comparisons of the source are exact on the integer time points
used here.  HTTP interactions of the token endpoint are an explicit
environment parameter: a function from attempt number to the observed
outcome of that attempt, mirroring the retry loop of "_refresh_token".
-/

namespace ApiKeyProxy

/-- Python "d.get(k)" on a dict embedded as an association list. -/
def dget {κ α : Type} [DecidableEq κ] (d : List (κ × α)) (k : κ) : Option α :=
  match d with
  | [] => none
  | (k', v) :: rest => if k' = k then some v else dget rest k

/-- Python "d[k] = v": replace the entry in place when the key is present,
otherwise append it (Python dicts preserve insertion order). -/
def dset {κ α : Type} [DecidableEq κ] (d : List (κ × α)) (k : κ) (v : α) :
    List (κ × α) :=
  match d with
  | [] => [(k, v)]
  | (k', v') :: rest =>
    if k' = k then (k, v) :: rest else (k', v') :: dset rest k v

/-- Python "d.pop(k, None)": remove the entry for the key when present. -/
def dpop {κ α : Type} [DecidableEq κ] (d : List (κ × α)) (k : κ) :
    List (κ × α) :=
  match d with
  | [] => []
  | (k', v') :: rest => if k' = k then rest else (k', v') :: dpop rest k

/-- Python "k in d". -/
def dmem {κ α : Type} [DecidableEq κ] (d : List (κ × α)) (k : κ) : Bool :=
  (dget d k).isSome

/-- The "_proxy_metadata" object of a credential file.  A missing
"loaded_from_env" key behaves as false in the source (falsy), so it is a
plain Bool here. -/
structure ProxyMetadata where
  email : Option String
  lastCheckTimestamp : Nat
  loadedFromEnv : Bool
  deriving DecidableEq, Repr

/-- A parsed Qwen credential document.  "refresh_token" may be missing or
empty in the source; both behave identically (falsy) in every guard, so a
missing token is embedded as the empty string.  A missing "expiry_date"
key defaults to 0 in the source ("creds.get(\x7b..\x7d, 0)"), embedded the
same way. -/
structure Creds where
  accessToken : String
  refreshToken : String
  expiryDate : Nat
  resourceUrl : Option String
  metadata : Option ProxyMetadata
  deriving DecidableEq, Repr

/-- Constant REFRESH_EXPIRY_BUFFER_SECONDS of qwen_auth_base.py. -/
def REFRESH_EXPIRY_BUFFER_SECONDS : Nat := 3 * 60 * 60

/-- "_is_token_expired": the source compares "expiry_date / 1000 <
time.time() + buffer" with real division; over the integer time points
used here this is equivalent to "expiry_date < (now + buffer) * 1000". -/
def isTokenExpired (creds : Creds) (now : Nat) : Bool :=
  creds.expiryDate < (now + REFRESH_EXPIRY_BUFFER_SECONDS) * 1000

/-- The mutable per-provider state of QwenAuthBase that the claims are
about (locks are elided: every embedded operation is one critical
section of the source). -/
structure AuthState where
  credentialsCache : List (String × Creds)
  refreshFailures : List (String × Nat)
  nextRefreshAfter : List (String × Nat)
  queuedCredentials : List String
  unavailableCredentials : List (String × Nat)
  refreshQueue : List (String × Bool × Bool)
  deriving DecidableEq, Repr

/-- Files on disk that parse as credential documents, keyed by path. -/
def FileSystem : Type := List (String × Creds)

instance : DecidableEq FileSystem := by
  unfold FileSystem
  infer_instance

/-- One token-endpoint response payload (HTTP 200 body).  The
"refresh_token" and "resource_url" keys may be absent ("none") or present
with any value, matching "new_token_data.get(...)". -/
structure TokenPayload where
  accessToken : String
  refreshToken : Option String
  expiresIn : Nat
  resourceUrl : Option String
  deriving DecidableEq, Repr

/-- Observed outcome of one POST of the retry loop in "_refresh_token". -/
inductive AttemptResult where
  | success (payload : TokenPayload)
  | httpStatus (code : Nat)
  | networkError
  deriving DecidableEq, Repr

/-- How the retry loop of "_refresh_token" terminates. -/
inductive LoopResult where
  /-- "break" with "new_token_data" set (HTTP 200). -/
  | gotData (payload : TokenPayload)
  /-- "break" with "needs_reauth = True" (HTTP 401 or 403). -/
  | needsReauth
  /-- a "raise" from inside the loop body propagated out. -/
  | raised
  /-- the "for" loop itself completed with "new_token_data is None",
  reaching the backoff block at lines 395-405 of the source. -/
  | exhausted
  deriving DecidableEq, Repr

/-- Constant "max_retries = 3" of "_refresh_token". -/
def MAX_RETRIES : Nat := 3

/-- The retry loop of "_refresh_token" (lines 296-362), driven by the
outcomes of the successive attempts.  "fuel" is the number of remaining
iterations of "for attempt in range(max_retries)"; the guard "attempt <
max_retries - 1" of the source holds exactly when more than one iteration
remains, i.e. when the decremented fuel is positive. -/
def retryLoopGo (attempts : Nat → AttemptResult) : Nat → Nat → LoopResult
  | _, 0 => .exhausted
  | attempt, fuel + 1 =>
    match attempts attempt with
    | .success payload => .gotData payload
    | .httpStatus code =>
      if code = 401 ∨ code = 403 then .needsReauth
      else if code = 429 then
        if 0 < fuel then retryLoopGo attempts (attempt + 1) fuel else .raised
      else if 500 ≤ code ∧ code < 600 then
        if 0 < fuel then retryLoopGo attempts (attempt + 1) fuel else .raised
      else .raised
    | .networkError =>
      if 0 < fuel then retryLoopGo attempts (attempt + 1) fuel else .raised

/-- The whole retry loop, started at attempt 0 with MAX_RETRIES fuel. -/
def retryLoop (attempts : Nat → AttemptResult) : LoopResult :=
  retryLoopGo attempts 0 MAX_RETRIES

/-- Backoff window length: "min(300, 30 * (2 ** failures))". -/
def backoffSeconds (failures : Nat) : Nat := min 300 (30 * 2 ^ failures)

/-- "_save_credentials": a credential loaded from the environment is
never written to disk, but the in-memory cache is still updated; any
other credential is written atomically and then cached.  Disk write
failures are not modelled. -/
def saveCredentials (st : AuthState) (fs : FileSystem) (path : String)
    (creds : Creds) : AuthState × FileSystem :=
  if (creds.metadata.map (·.loadedFromEnv)).getD false then
    ({ st with credentialsCache := dset st.credentialsCache path creds }, fs)
  else
    ({ st with credentialsCache := dset st.credentialsCache path creds },
     dset fs path creds)

/-- The environment of one "_refresh_token" call: the token-endpoint
attempt outcomes, the result of the interactive re-auth flow that the
401/403 path escalates to (some creds on success, none when it raises),
and the current time in seconds. -/
structure RefreshEnv where
  attempts : Nat → AttemptResult
  reauthResult : Option Creds
  now : Nat

/-- Result of "_refresh_token": the returned credentials, or a raised
exception. -/
inductive RefreshResult where
  | ok (creds : Creds)
  | err
  deriving DecidableEq, Repr

/-- The credential document built by lines 407-421 of "_refresh_token"
from the old cached document and the token payload: the cached dict is
mutated in place with the new tokens, the new expiry
"(time.time() + expires_in) * 1000", the resource URL, and a freshly
stamped "_proxy_metadata". -/
def applyPayload (creds : Creds) (payload : TokenPayload) (now : Nat) : Creds :=
  { accessToken := payload.accessToken
    refreshToken := payload.refreshToken.getD creds.refreshToken
    expiryDate := (now + payload.expiresIn) * 1000
    resourceUrl :=
      match payload.resourceUrl with
      | some u => some u
      | none => creds.resourceUrl
    metadata :=
      some { (creds.metadata.getD
               { email := none, lastCheckTimestamp := 0,
                 loadedFromEnv := false }) with
             lastCheckTimestamp := now } }

/-- Lines 278-441 of "_refresh_token": the part after the early-return
and the cache fill, for the credential document now present in the
cache. -/
def refreshTokenBody (st : AuthState) (fs : FileSystem) (path : String)
    (env : RefreshEnv) (creds : Creds) :
    RefreshResult × AuthState × FileSystem :=
  if creds.refreshToken = "" then
    (.err, st, fs)  -- ValueError: no refresh_token found
  else
    match retryLoop env.attempts with
    | .needsReauth =>
      -- lines 364-393: escalate to interactive re-auth
      match env.reauthResult with
      | some newCreds =>
        (.ok newCreds,
         { st with
           refreshFailures := dpop st.refreshFailures path,
           nextRefreshAfter := dpop st.nextRefreshAfter path }, fs)
      | none =>
        let f := (dget st.refreshFailures path).getD 0 + 1
        (.err,
         { st with
           refreshFailures := dset st.refreshFailures path f,
           nextRefreshAfter :=
             dset st.nextRefreshAfter path (env.now + backoffSeconds f) },
         fs)
    | .raised => (.err, st, fs)  -- re-raise from inside the loop
    | .exhausted =>
      -- lines 395-405: "if new_token_data is None"
      let f := (dget st.refreshFailures path).getD 0 + 1
      (.err,
       { st with
         refreshFailures := dset st.refreshFailures path f,
         nextRefreshAfter :=
           dset st.nextRefreshAfter path (env.now + backoffSeconds f) },
       fs)
    | .gotData payload =>
      let newCreds := applyPayload creds payload env.now
      let st1 := { st with
        credentialsCache := dset st.credentialsCache path newCreds }
      -- lines 423-431: post-refresh validation of required fields
      if newCreds.accessToken = "" ∨ newCreds.refreshToken = "" then
        (.err, st1, fs)  -- ValueError, no backoff update, no save
      else
        -- lines 433-441: clear backoff, persist, return
        let st2 := { st1 with
          refreshFailures := dpop st1.refreshFailures path,
          nextRefreshAfter := dpop st1.nextRefreshAfter path }
        let saved := saveCredentials st2 fs path newCreds
        (.ok newCreds, saved.1, saved.2)

/-- "_refresh_token" (lines 266-441 of qwen_auth_base.py).  The state and
filesystem effects of the interactive re-auth flow itself are outside
this function in the source ("initialize_token") and are not modelled;
only its success or failure and the resulting credentials are. -/
def refreshToken (st : AuthState) (fs : FileSystem) (path : String)
    (force : Bool) (env : RefreshEnv) : RefreshResult × AuthState × FileSystem :=
  -- early return: cached and not expired and not force
  match dget st.credentialsCache path with
  | some cached =>
    if ¬force ∧ ¬isTokenExpired cached env.now then (.ok cached, st, fs)
    else refreshTokenBody st fs path env cached
  | none =>
    -- cache miss: "_read_creds_from_file" populates the cache
    match dget fs path with
    | none => (.err, st, fs)  -- IOError: credential file not found
    | some fileCreds =>
      let st1 := { st with
        credentialsCache := dset st.credentialsCache path fileCreds }
      refreshTokenBody st1 fs path env fileCreds

/-- Constant "_unavailable_ttl_seconds = 300" of QwenAuthBase. -/
def unavailableTtlSeconds : Nat := 300

/-- "is_credential_available" (lines 513-537): available when the path is
not in the unavailable dict; when the entry is older than the TTL it is
reaped and the credential reported available; otherwise unavailable.  The
source computes "now - marked_time" over floats; for a marked time in the
future the difference is negative, hence below the positive TTL, exactly
as truncated Nat subtraction behaves here. -/
def isCredentialAvailable (st : AuthState) (path : String) (now : Nat) :
    Bool × AuthState :=
  match dget st.unavailableCredentials path with
  | none => (true, st)
  | some markedTime =>
    if unavailableTtlSeconds < now - markedTime then
      (true,
       { st with
         unavailableCredentials := dpop st.unavailableCredentials path })
    else (false, st)

/-- The backoff-window test of "_queue_refresh": the path has a
"_next_refresh_after" entry and the current time is before it. -/
def inBackoff (st : AuthState) (path : String) (now : Nat) : Bool :=
  match dget st.nextRefreshAfter path with
  | some backoffUntil => now < backoffUntil
  | none => false

/-- "_queue_refresh" (lines 546-580): admission to the refresh queue.
The lazy start of the worker task has no state of its own here. -/
def queueRefresh (st : AuthState) (path : String) (force needsReauth : Bool)
    (now : Nat) : AuthState :=
  if ¬needsReauth ∧ inBackoff st path now then
    st  -- in backoff for automated refresh, do not queue
  else if st.queuedCredentials.contains path then
    st  -- already queued, drop
  else
    { st with
      queuedCredentials := st.queuedCredentials ++ [path],
      unavailableCredentials := dset st.unavailableCredentials path now,
      refreshQueue := st.refreshQueue ++ [(path, force, needsReauth)] }

/-- Python "s.startswith(pre)", over the character lists of the
strings. -/
def strStarts (s pre : String) : Bool := pre.data.isPrefixOf s.data

/-- Python "s.lower()" over the character list (the environment keys of
the source are ASCII). -/
def pyLower (s : String) : String := String.mk (s.data.map Char.toLower)

/-- Python 's.split("/")' over a character list. -/
def splitSlash : List Char → List (List Char)
  | [] => [[]]
  | c :: rest =>
    if c = '/' then [] :: splitSlash rest
    else
      match splitSlash rest with
      | [] => [[c]]
      | piece :: pieces => (c :: piece) :: pieces

/-- Python "sep in s" over character lists: some suffix of s has sep as a
prefix. -/
def containsSeq (sep : List Char) : List Char → Bool
  | [] => sep.isEmpty
  | c :: rest => sep.isPrefixOf (c :: rest) || containsSeq sep rest

/-- The characters before the first occurrence of sep: the first piece of
Python "s.split(sep)". -/
def beforeSeq (sep : List Char) : List Char → List Char
  | [] => []
  | c :: rest =>
    if sep.isPrefixOf (c :: rest) then [] else c :: beforeSeq sep rest

/-- Python 's.replace(sep, "")' with a nonempty sep, deleting the
non-overlapping occurrences left to right; the fuel (length of s) is
enough because every step consumes at least one character. -/
def removeSeqGo (sep : List Char) : Nat → List Char → List Char
  | _, [] => []
  | 0, s => s
  | fuel + 1, c :: rest =>
    if sep.isPrefixOf (c :: rest) then
      removeSeqGo sep fuel (rest.drop (sep.length - 1))
    else c :: removeSeqGo sep fuel rest

/-- Python 's.replace(sep, "")'. -/
def removeSeq (sep s : List Char) : List Char := removeSeqGo sep s.length s

/-- "_parse_env_credential_path" (lines 68-85): 'path[6:].split("/")',
the piece at index 1 when there are at least two pieces, else "0". -/
def parseEnvCredentialPath (path : String) : Option String :=
  if strStarts path "env://" then
    match (splitSlash (path.data.drop 6)).get? 1 with
    | some idx => some (String.mk idx)
    | none => some "0"
  else none

/-- Environment variables visible to "_load_from_env": for each credential
index the assembled credential, or none when the required access and
refresh token variables are absent.  Index "0" is the legacy unnumbered
"QWEN_CODE_*" form, which "_load_from_env" also uses when called with no
index. -/
structure EnvVars where
  envCreds : String → Option Creds

/-- "_load_credentials" (lines 166-201): cache, then virtual env path,
then legacy env variables, then the file.  Returns none when the source
raises IOError. -/
def loadCredentials (st : AuthState) (fs : FileSystem) (envv : EnvVars)
    (path : String) : Option Creds × AuthState :=
  match dget st.credentialsCache path with
  | some c => (some c, st)
  | none =>
    match parseEnvCredentialPath path with
    | some idx =>
      match envv.envCreds idx with
      | some c =>
        (some c, { st with credentialsCache := dset st.credentialsCache path c })
      | none => (none, st)
    | none =>
      match envv.envCreds "0" with
      | some c =>
        (some c, { st with credentialsCache := dset st.credentialsCache path c })
      | none =>
        match dget fs path with
        | some c =>
          (some c,
           { st with credentialsCache := dset st.credentialsCache path c })
        | none => (none, st)

/-- The cleanup performed for a queue item in every exit path of the
worker body: the "finally" block discards the path from the queued set
and pops it from the unavailable dict, and the success, error and
marked-available paths pop the unavailable entry as well (popping twice
is the same as once). -/
def queueItemCleanup (st : AuthState) (path : String) : AuthState :=
  { st with
    queuedCredentials := st.queuedCredentials.erase path,
    unavailableCredentials := dpop st.unavailableCredentials path }

/-- Outcome of the worker body of "_process_refresh_queue" for one
popped item. -/
inductive WorkerOutcome where
  /-- the body reached "task_done": the finally cleanup ran. -/
  | completed (st : AuthState) (fs : FileSystem)
  /-- the worker task is blocked forever: it awaited the per-credential
  lock that it already holds ("asyncio.Lock" is not reentrant), so no
  further statement of the body — the finally cleanup included — ever
  runs; the state is as it was at the moment of blocking. -/
  | deadlocked (st : AuthState) (fs : FileSystem)
  deriving DecidableEq

/-- The auth state carried by a worker outcome. -/
def WorkerOutcome.state : WorkerOutcome → AuthState
  | .completed st _ => st
  | .deadlocked st _ => st

/-- Whether the worker body completed the item ("task_done" reached). -/
def WorkerOutcome.isCompleted : WorkerOutcome → Bool
  | .completed _ _ => true
  | .deadlocked _ _ => false

/-- One iteration of "_process_refresh_queue" (lines 612-651) for a
popped item "(path, force, needs_reauth)".  The worker acquires the
per-credential lock at line 614 and holds it for the whole body.  When a
cached credential exists and is not expired — the check at line 617
ignores "force" — the credential is marked available and the finally
block erases it from the queued set and pops it from the unavailable
dict (popping a second time).  In every other case the body calls
"_load_credentials" (line 629; on this cache miss it re-acquires the
held lock at line 171) or "_refresh_token" (line 630; it re-acquires
the held lock at line 267); "_get_lock" returns the same
"asyncio.Lock" instance for the same path and that lock is not
reentrant, so the worker blocks forever with the state unchanged and
the finally cleanup never runs.  The popped "needs_reauth" flag is
unused by the worker, exactly as in the source. -/
def processQueueItem (st : AuthState) (fs : FileSystem) (path : String)
    (force needsReauth : Bool) (now : Nat) : WorkerOutcome :=
  match dget st.credentialsCache path with
  | some creds =>
    if ¬isTokenExpired creds now then
      -- no longer expired: mark available, task_done, continue
      .completed
        (queueItemCleanup
          { st with
            unavailableCredentials := dpop st.unavailableCredentials path }
          path)
        fs
    else
      -- "_refresh_token(path, force)" blocks on the held lock
      .deadlocked st fs
  | none =>
    -- "_load_credentials(path)" misses the cache and blocks on the held
    -- lock before reading anything
    .deadlocked st fs

/-- Result of "get_api_details". -/
inductive ApiDetailsResult where
  | ok (baseUrl accessToken : String)
  | err
  deriving DecidableEq, Repr

/-- Default Qwen base URL used by "get_api_details". -/
def qwenDefaultBaseUrl : String := "https://portal.qwen.ai/v1"

/-- Base URL resolution of "get_api_details" for OAuth credentials:
"creds.get(resource_url, default)" with an "https://" patch when the
value does not start with "http". -/
def resolveBaseUrl (creds : Creds) : String :=
  let baseUrl := creds.resourceUrl.getD qwenDefaultBaseUrl
  if ¬strStarts baseUrl "http" then "https://" ++ baseUrl else baseUrl

/-- "get_api_details" (lines 443-472).  "os.path.isfile" is membership of
the filesystem map; a string that is not the path of an existing file is
treated as a direct API key and returned verbatim with the default base
URL. -/
def getApiDetails (st : AuthState) (fs : FileSystem) (envv : EnvVars)
    (env : RefreshEnv) (credentialIdentifier : String) :
    ApiDetailsResult × AuthState × FileSystem :=
  if (dget fs credentialIdentifier).isSome then
    match loadCredentials st fs envv credentialIdentifier with
    | (none, st1) => (.err, st1, fs)
    | (some creds, st1) =>
      if isTokenExpired creds env.now then
        match refreshToken st1 fs credentialIdentifier false env with
        | (.ok newCreds, st2, fs2) =>
          (.ok (resolveBaseUrl newCreds) newCreds.accessToken, st2, fs2)
        | (.err, st2, fs2) => (.err, st2, fs2)
      else (.ok (resolveBaseUrl creds) creds.accessToken, st1, fs)
  else (.ok qwenDefaultBaseUrl credentialIdentifier, st, fs)

/-!
Credential discovery from environment variables: the loop of
proxy_app/main.py (lines 336-342) and
CredentialManager._discover_api_keys (credential_manager.py lines 48-69).
-/

/-- The eligibility test shared by both discovery loops:
'"_API_KEY" in key and key != "PROXY_API_KEY"'. -/
def apiKeyIn (key : String) : Bool := containsSeq "_API_KEY".data key.data

/-- The provider name that "CredentialManager._discover_api_keys" assigns
to an environment key, or none when the key is not an API-key variable:
the source deletes every occurrence of the substring "_API_KEY"
('key.replace("_API_KEY", "")') and lower-cases the rest. -/
def cmDiscoverProvider (key : String) : Option String :=
  if apiKeyIn key ∧ key ≠ "PROXY_API_KEY" then
    some (pyLower (String.mk (removeSeq "_API_KEY".data key.data)))
  else none

/-- The provider name that the discovery loop of proxy_app/main.py
assigns to an environment key: the text before the first occurrence of
"_API_KEY", lower-cased ('key.split("_API_KEY")[0].lower()'). -/
def mainDiscoverProvider (key : String) : Option String :=
  if apiKeyIn key ∧ key ≠ "PROXY_API_KEY" then
    some (pyLower (String.mk (beforeSeq "_API_KEY".data key.data)))
  else none

/-- "CredentialManager._discover_api_keys" over a whole environment:
each eligible key is appended to the list of its provider, as the
identifier "env://KEY". -/
def discoverApiKeys (environment : List (String × String)) :
    List (String × List String) :=
  environment.foldl
    (fun acc kv =>
      match cmDiscoverProvider kv.1 with
      | some provider =>
        dset acc provider ((dget acc provider).getD [] ++ ["env://" ++ kv.1])
      | none => acc)
    []

/-- The api_keys discovery loop of proxy_app/main.py over a whole
environment: each eligible key appends its value to the list of its
provider. -/
def mainApiKeys (environment : List (String × String)) :
    List (String × List String) :=
  environment.foldl
    (fun acc kv =>
      match mainDiscoverProvider kv.1 with
      | some provider =>
        dset acc provider ((dget acc provider).getD [] ++ [kv.2])
      | none => acc)
    []

/-!
ReauthCoordinator (utils/reauth_coordinator.py) as an interleaving
transition system.  Each transition is one segment of "execute_reauth"
between suspension points of the event loop:

- "call": a caller enters "execute_reauth" and suspends on
  "_active_reauth_lock".
- "acquire": the lock is free and a waiting caller acquires it; the
  following segment up to "await asyncio.wait_for(task, ...)" runs
  without suspension: the check of "_active_reauth_tasks", and either
  the join branch (lines 53-68) or task creation plus the dict insert
  (lines 71-72).
- "finish" / "timeoutFail": the awaited task completes (or times out);
  the caller resumes, the "finally" block pops the dict entry, and
  leaving the "async with" releases the lock, all without suspension.
-/

/-- Default timeout of "ReauthCoordinator.execute_reauth", seconds. -/
def defaultReauthTimeout : Nat := 300

/-- Where a caller is inside "execute_reauth". -/
inductive CallerPhase where
  | idle
  /-- suspended on "_active_reauth_lock" for this reauth id. -/
  | waitingLock (reauthId : String)
  /-- holding the lock with an own task in "_active_reauth_tasks";
  the interactive flow for this id is active. -/
  | running (reauthId : String)
  /-- holding the lock inside the join branch, awaiting a foreign task. -/
  | joined (reauthId : String)
  | finished
  deriving DecidableEq, Repr

/-- Global coordinator state plus the phase of every caller. -/
structure CoordState where
  lockOwner : Option Nat
  activeTasks : List (String × Nat)
  phases : List (Nat × CallerPhase)
  flowsStarted : Nat
  joinCount : Nat
  deriving DecidableEq, Repr

/-- Phase of a caller; callers not yet seen are idle. -/
def CoordState.phase (st : CoordState) (i : Nat) : CallerPhase :=
  (dget st.phases i).getD .idle

/-- Interleaving events; an event whose guard does not hold leaves the
state unchanged (the scheduler cannot run a caller that is not ready). -/
inductive CoordEvent where
  | call (i : Nat) (reauthId : String)
  | acquire (i : Nat)
  | finish (i : Nat)
  | timeoutFail (i : Nat)
  deriving DecidableEq, Repr

/-- One transition of the coordinator model. -/
def coordStep (st : CoordState) (e : CoordEvent) : CoordState :=
  match e with
  | .call i reauthId =>
    if st.phase i = .idle then
      { st with phases := dset st.phases i (.waitingLock reauthId) }
    else st
  | .acquire i =>
    match st.phase i, st.lockOwner with
    | .waitingLock reauthId, none =>
      match dget st.activeTasks reauthId with
      | some _ =>
        -- join branch: wait for the existing task while holding the lock
        { st with
          lockOwner := some i,
          joinCount := st.joinCount + 1,
          phases := dset st.phases i (.joined reauthId) }
      | none =>
        -- create a new task and register it
        { st with
          lockOwner := some i,
          flowsStarted := st.flowsStarted + 1,
          activeTasks := dset st.activeTasks reauthId i,
          phases := dset st.phases i (.running reauthId) }
    | _, _ => st
  | .finish i | .timeoutFail i =>
    match st.phase i with
    | .running reauthId =>
      if st.lockOwner = some i then
        { st with
          lockOwner := none,
          activeTasks := dpop st.activeTasks reauthId,
          phases := dset st.phases i .finished }
      else st
    | _ => st

/-- Initial coordinator state: the module-level singleton. -/
def coordInit : CoordState :=
  { lockOwner := none, activeTasks := [], phases := [],
    flowsStarted := 0, joinCount := 0 }

/-- Run a schedule of events from the initial state. -/
def runCoord (events : List CoordEvent) : CoordState :=
  events.foldl coordStep coordInit

/-- Whether a phase has an active interactive flow. -/
def isRunningPhase : CallerPhase → Bool
  | .running _ => true
  | _ => false

/-- The callers whose interactive flow is active. -/
def runningCallers (st : CoordState) : List Nat :=
  (st.phases.filter fun p => isRunningPhase p.2).map Prod.fst

/-!
Lemmas about the dict embedding.
-/

theorem dget_dset_self {κ α : Type} [DecidableEq κ] (d : List (κ × α))
    (k : κ) (v : α) : dget (dset d k v) k = some v := by
  induction d with
  | nil => simp [dset, dget]
  | cons hd tl ih =>
    obtain ⟨a, b⟩ := hd
    by_cases h : a = k
    · simp [dset, h, dget]
    · simp [dset, h, dget, ih]

theorem dget_dset_ne {κ α : Type} [DecidableEq κ] (d : List (κ × α))
    {k k' : κ} (v : α) (h : k' ≠ k) : dget (dset d k v) k' = dget d k' := by
  induction d with
  | nil => simp [dset, dget, h, Ne.symm h]
  | cons hd tl ih =>
    obtain ⟨a, b⟩ := hd
    by_cases hak : a = k
    · subst hak
      simp [dset, dget, Ne.symm h]
    · by_cases hak' : a = k'
      · simp [dset, dget, hak, hak', h]
      · simp [dset, dget, hak, hak', ih]

theorem dget_eq_none_of_not_mem_keys {κ α : Type} [DecidableEq κ]
    {d : List (κ × α)} {k : κ} (h : k ∉ d.map Prod.fst) : dget d k = none := by
  induction d with
  | nil => simp [dget]
  | cons hd tl ih =>
    obtain ⟨a, b⟩ := hd
    simp only [List.map_cons, List.mem_cons, not_or] at h
    simp [dget, Ne.symm h.1, ih h.2]

theorem dget_dpop_ne {κ α : Type} [DecidableEq κ] (d : List (κ × α))
    {k k' : κ} (h : k' ≠ k) : dget (dpop d k) k' = dget d k' := by
  induction d with
  | nil => simp [dpop]
  | cons hd tl ih =>
    obtain ⟨a, b⟩ := hd
    by_cases hak : a = k
    · subst hak
      simp [dpop, dget, Ne.symm h]
    · by_cases hak' : a = k'
      · simp [dpop, dget, hak, hak', h]
      · simp [dpop, dget, hak, hak', ih]

theorem dget_dpop_self {κ α : Type} [DecidableEq κ] {d : List (κ × α)}
    (hnd : (d.map Prod.fst).Nodup) (k : κ) : dget (dpop d k) k = none := by
  induction d with
  | nil => simp [dpop, dget]
  | cons hd tl ih =>
    obtain ⟨a, b⟩ := hd
    simp only [List.map_cons, List.nodup_cons] at hnd
    by_cases hak : a = k
    · subst hak
      simp only [dpop, if_pos rfl]
      exact dget_eq_none_of_not_mem_keys hnd.1
    · simp [dpop, dget, hak, ih hnd.2]

theorem mem_keys_dset {κ α : Type} [DecidableEq κ] (d : List (κ × α))
    (k : κ) (v : α) (x : κ) :
    x ∈ (dset d k v).map Prod.fst ↔ x ∈ d.map Prod.fst ∨ x = k := by
  induction d with
  | nil => simp [dset]
  | cons hd tl ih =>
    obtain ⟨a, b⟩ := hd
    by_cases hak : a = k
    · subst hak
      rw [show dset ((a, b) :: tl) a v = (a, v) :: tl from by simp [dset]]
      simp only [List.map_cons, List.mem_cons]
      tauto
    · rw [show dset ((a, b) :: tl) k v = (a, b) :: dset tl k v from by
        simp [dset, hak]]
      simp only [List.map_cons, List.mem_cons, ih]
      tauto

theorem dkeysNodup_dset {κ α : Type} [DecidableEq κ] {d : List (κ × α)}
    (k : κ) (v : α) (h : (d.map Prod.fst).Nodup) :
    ((dset d k v).map Prod.fst).Nodup := by
  induction d with
  | nil => simp [dset]
  | cons hd tl ih =>
    obtain ⟨a, b⟩ := hd
    simp only [List.map_cons, List.nodup_cons] at h
    by_cases hak : a = k
    · subst hak
      simpa [dset, List.nodup_cons] using h
    · simp only [dset, if_neg hak, List.map_cons, List.nodup_cons]
      refine ⟨?_, ih h.2⟩
      rw [mem_keys_dset]
      rintro (hm | hm)
      · exact h.1 hm
      · exact hak hm

theorem mem_dset_iff {κ α : Type} [DecidableEq κ] {d : List (κ × α)}
    (hnd : (d.map Prod.fst).Nodup) (k : κ) (v : α) (pr : κ × α) :
    pr ∈ dset d k v ↔ pr = (k, v) ∨ (pr ∈ d ∧ pr.1 ≠ k) := by
  induction d with
  | nil => simp [dset]
  | cons hd tl ih =>
    obtain ⟨a, b⟩ := hd
    simp only [List.map_cons, List.nodup_cons] at hnd
    by_cases hak : a = k
    · subst hak
      rw [show dset ((a, b) :: tl) a v = (a, v) :: tl from by simp [dset]]
      simp only [List.mem_cons]
      constructor
      · rintro (rfl | hm)
        · exact Or.inl rfl
        · have hne : pr.1 ≠ a := fun hpk =>
            hnd.1 (hpk ▸ List.mem_map_of_mem Prod.fst hm)
          exact Or.inr ⟨Or.inr hm, hne⟩
      · rintro (rfl | ⟨hm, hne⟩)
        · exact Or.inl rfl
        · rcases hm with rfl | hm
          · exact absurd rfl hne
          · exact Or.inr hm
    · rw [show dset ((a, b) :: tl) k v = (a, b) :: dset tl k v from by
        simp [dset, hak]]
      simp only [List.mem_cons, ih hnd.2]
      constructor
      · rintro (rfl | rfl | ⟨hm, hne⟩)
        · exact Or.inr ⟨Or.inl rfl, hak⟩
        · exact Or.inl rfl
        · exact Or.inr ⟨Or.inr hm, hne⟩
      · rintro (rfl | ⟨hm, hne⟩)
        · exact Or.inr (Or.inl rfl)
        · rcases hm with rfl | hm
          · exact Or.inl rfl
          · exact Or.inr (Or.inr ⟨hm, hne⟩)

theorem nodup_all_eq_length_le_one {β : Type} {l : List β} {i : β}
    (hnd : l.Nodup) (h : ∀ x ∈ l, x = i) : l.length ≤ 1 := by
  match l with
  | [] => simp
  | [x] => simp
  | x :: y :: rest =>
    exfalso
    have hx : x = i := h x (by simp)
    have hy : y = i := h y (by simp)
    simp only [List.nodup_cons, List.mem_cons] at hnd
    exact hnd.1 (Or.inl (hx.trans hy.symm))

/-!
Invariant of the coordinator model: the interactive section runs
entirely under the global lock, and the task map is populated only while
its creator holds the lock.
-/

theorem phase_running_dget {st : CoordState} {i : Nat} {rid : String}
    (h : st.phase i = .running rid) :
    dget st.phases i = some (.running rid) := by
  unfold CoordState.phase at h
  cases hd : dget st.phases i with
  | none => rw [hd] at h; simp at h
  | some p => rw [hd] at h; simp at h; rw [h]

/-- Coupling of lock, task map and phases. -/
def LockInv (st : CoordState) : Prop :=
  match st.lockOwner with
  | none =>
    st.activeTasks = [] ∧ ∀ pr ∈ st.phases, isRunningPhase pr.2 = false
  | some i =>
    ∃ rid, dget st.phases i = some (.running rid) ∧
      st.activeTasks = [(rid, i)] ∧
      ∀ pr ∈ st.phases, isRunningPhase pr.2 = true → pr.1 = i

/-- Inductive invariant of the coordinator model: no caller has ever
taken the join branch, the phase table keys are distinct, and the lock
coupling holds. -/
def CoordInv (st : CoordState) : Prop :=
  st.joinCount = 0 ∧ (st.phases.map Prod.fst).Nodup ∧ LockInv st

/-- The release transition (task completion or timeout) preserves the
invariant; "finish" and "timeoutFail" reduce to the same transition. -/
theorem coordRelease_inv (st : CoordState) (i : Nat) (hj : st.joinCount = 0)
    (hnd : (st.phases.map Prod.fst).Nodup) (hlock : LockInv st) :
    CoordInv (coordStep st (.finish i)) := by
  cases hph : st.phase i with
  | running rid =>
    by_cases hlo : st.lockOwner = some i
    · have hdg := phase_running_dget hph
      unfold LockInv at hlock
      rw [hlo] at hlock
      obtain ⟨rid', hdg', htasks, hrun⟩ := hlock
      have hrr : rid' = rid := by
        rw [hdg] at hdg'
        simpa using hdg'.symm
      subst hrr
      simp only [coordStep, hph, if_pos hlo]
      refine ⟨hj, dkeysNodup_dset _ _ hnd, ?_⟩
      unfold LockInv
      refine ⟨by rw [htasks]; simp [dpop], ?_⟩
      intro pr hpr
      rcases (mem_dset_iff hnd _ _ _).mp hpr with rfl | ⟨hm, hne⟩
      · rfl
      · by_contra hr
        simp only [Bool.not_eq_false] at hr
        exact hne (hrun pr hm hr)
    · simp only [coordStep, hph, if_neg hlo]
      exact ⟨hj, hnd, hlock⟩
  | idle => simp only [coordStep, hph]; exact ⟨hj, hnd, hlock⟩
  | waitingLock rid => simp only [coordStep, hph]; exact ⟨hj, hnd, hlock⟩
  | joined rid => simp only [coordStep, hph]; exact ⟨hj, hnd, hlock⟩
  | finished => simp only [coordStep, hph]; exact ⟨hj, hnd, hlock⟩

theorem coordStep_inv (st : CoordState) (e : CoordEvent) (h : CoordInv st) :
    CoordInv (coordStep st e) := by
  obtain ⟨hj, hnd, hlock⟩ := h
  cases e with
  | call i rid =>
    by_cases hph : st.phase i = .idle
    · simp only [coordStep, if_pos hph]
      refine ⟨hj, dkeysNodup_dset _ _ hnd, ?_⟩
      unfold LockInv at hlock ⊢
      cases hlo : st.lockOwner with
      | none =>
        rw [hlo] at hlock
        refine ⟨hlock.1, ?_⟩
        intro pr hpr
        rcases (mem_dset_iff hnd _ _ _).mp hpr with rfl | ⟨hm, -⟩
        · rfl
        · exact hlock.2 pr hm
      | some j =>
        rw [hlo] at hlock
        obtain ⟨rid', hdg, htasks, hrun⟩ := hlock
        have hij : i ≠ j := by
          rintro rfl
          rw [CoordState.phase, hdg] at hph
          simp at hph
        refine ⟨rid', ?_, htasks, ?_⟩
        · rw [dget_dset_ne _ _ (Ne.symm hij)]
          exact hdg
        · intro pr hpr hr
          rcases (mem_dset_iff hnd _ _ _).mp hpr with rfl | ⟨hm, -⟩
          · simp [isRunningPhase] at hr
          · exact hrun pr hm hr
    · simp only [coordStep, if_neg hph]
      exact ⟨hj, hnd, hlock⟩
  | acquire i =>
    cases hph : st.phase i with
    | waitingLock rid =>
      cases hlo : st.lockOwner with
      | none =>
        have htasks : st.activeTasks = [] := by
          unfold LockInv at hlock
          rw [hlo] at hlock
          exact hlock.1
        have hnorun : ∀ pr ∈ st.phases, isRunningPhase pr.2 = false := by
          unfold LockInv at hlock
          rw [hlo] at hlock
          exact hlock.2
        simp only [coordStep, hph, hlo, htasks, dget]
        refine ⟨hj, dkeysNodup_dset _ _ hnd, ?_⟩
        unfold LockInv
        refine ⟨rid, dget_dset_self _ _ _, by simp [dset], ?_⟩
        intro pr hpr hr
        rcases (mem_dset_iff hnd _ _ _).mp hpr with rfl | ⟨hm, -⟩
        · rfl
        · rw [hnorun pr hm] at hr
          exact absurd hr (by simp)
      | some j =>
        simp only [coordStep, hph, hlo]
        exact ⟨hj, hnd, hlock⟩
    | idle => simp only [coordStep, hph]; exact ⟨hj, hnd, hlock⟩
    | running rid => simp only [coordStep, hph]; exact ⟨hj, hnd, hlock⟩
    | joined rid => simp only [coordStep, hph]; exact ⟨hj, hnd, hlock⟩
    | finished => simp only [coordStep, hph]; exact ⟨hj, hnd, hlock⟩
  | finish i =>
    exact coordRelease_inv st i hj hnd hlock
  | timeoutFail i =>
    exact coordRelease_inv st i hj hnd hlock

theorem coordInv_init : CoordInv coordInit := by
  refine ⟨rfl, by simp [coordInit], ?_⟩
  unfold LockInv coordInit
  exact ⟨rfl, by intro pr hpr; simp at hpr⟩

theorem coordInv_foldl (events : List CoordEvent) :
    ∀ st, CoordInv st → CoordInv (events.foldl coordStep st) := by
  induction events with
  | nil => intro st h; simpa using h
  | cons e rest ih =>
    intro st h
    simpa using ih _ (coordStep_inv st e h)

theorem coordInv_runCoord (events : List CoordEvent) :
    CoordInv (runCoord events) :=
  coordInv_foldl events coordInit coordInv_init

theorem runningCallers_length_le_one {st : CoordState} (h : CoordInv st) :
    (runningCallers st).length ≤ 1 := by
  obtain ⟨-, hnd, hlock⟩ := h
  unfold runningCallers
  cases hlo : st.lockOwner with
  | none =>
    unfold LockInv at hlock
    rw [hlo] at hlock
    have hnil : st.phases.filter (fun p => isRunningPhase p.2) = [] := by
      rw [List.filter_eq_nil]
      intro pr hpr
      simp [hlock.2 pr hpr]
    simp [hnil]
  | some i =>
    unfold LockInv at hlock
    rw [hlo] at hlock
    obtain ⟨rid, hdg, htasks, hrun⟩ := hlock
    apply nodup_all_eq_length_le_one (i := i)
    · exact hnd.sublist (List.Sublist.map _ (List.filter_sublist _))
    · intro x hx
      simp only [List.mem_map, List.mem_filter] at hx
      obtain ⟨pr, ⟨hmem, hrunb⟩, rfl⟩ := hx
      exact hrun pr hmem hrunb

/-!
Frame lemmas: the refresh and load operations never touch the queue
tracking fields, and the retry loop never reaches the exhausted case.
-/

theorem keys_dpop_sublist {κ α : Type} [DecidableEq κ] (d : List (κ × α))
    (k : κ) : List.Sublist ((dpop d k).map Prod.fst) (d.map Prod.fst) := by
  induction d with
  | nil => simp [dpop]
  | cons hd tl ih =>
    obtain ⟨a, b⟩ := hd
    by_cases hak : a = k
    · simp only [dpop, if_pos hak, List.map_cons]
      exact (List.sublist_cons_self _ _)
    · simp only [dpop, if_neg hak, List.map_cons]
      exact ih.cons₂ a

theorem dkeysNodup_dpop {κ α : Type} [DecidableEq κ] {d : List (κ × α)}
    (k : κ) (h : (d.map Prod.fst).Nodup) : ((dpop d k).map Prod.fst).Nodup :=
  h.sublist (keys_dpop_sublist d k)

theorem refreshTokenBody_frame (st : AuthState) (fs : FileSystem)
    (path : String) (env : RefreshEnv) (creds : Creds) :
    (refreshTokenBody st fs path env creds).2.1.queuedCredentials =
      st.queuedCredentials ∧
    (refreshTokenBody st fs path env creds).2.1.unavailableCredentials =
      st.unavailableCredentials ∧
    (refreshTokenBody st fs path env creds).2.1.refreshQueue =
      st.refreshQueue := by
  unfold refreshTokenBody
  by_cases hrt : creds.refreshToken = ""
  · simp [hrt]
  · cases hl : retryLoop env.attempts with
    | needsReauth => cases env.reauthResult <;> simp [hrt, hl]
    | raised => simp [hrt, hl]
    | exhausted => simp [hrt, hl]
    | gotData payload =>
      by_cases hval : (applyPayload creds payload env.now).accessToken = "" ∨
          (applyPayload creds payload env.now).refreshToken = ""
      · simp [hrt, hl, hval]
      · simp only [if_neg hrt, if_neg hval]
        simp [saveCredentials]
        split <;> simp

theorem refreshToken_frame (st : AuthState) (fs : FileSystem) (path : String)
    (force : Bool) (env : RefreshEnv) :
    (refreshToken st fs path force env).2.1.queuedCredentials =
      st.queuedCredentials ∧
    (refreshToken st fs path force env).2.1.unavailableCredentials =
      st.unavailableCredentials ∧
    (refreshToken st fs path force env).2.1.refreshQueue =
      st.refreshQueue := by
  unfold refreshToken
  cases hdc : dget st.credentialsCache path with
  | some cached =>
    by_cases hcond : ¬force = true ∧ ¬isTokenExpired cached env.now = true
    · simp [hcond]
    · simp only [if_neg hcond]
      exact refreshTokenBody_frame st fs path env cached
  | none =>
    cases hdf : dget fs path with
    | none => exact ⟨rfl, rfl, rfl⟩
    | some fileCreds =>
      exact refreshTokenBody_frame _ fs path env fileCreds

theorem loadCredentials_frame (st : AuthState) (fs : FileSystem)
    (envv : EnvVars) (path : String) :
    (loadCredentials st fs envv path).2.queuedCredentials =
      st.queuedCredentials ∧
    (loadCredentials st fs envv path).2.unavailableCredentials =
      st.unavailableCredentials ∧
    (loadCredentials st fs envv path).2.refreshQueue = st.refreshQueue := by
  unfold loadCredentials
  refine ⟨?_, ?_, ?_⟩ <;> (repeat' split) <;> simp

theorem retryLoopGo_ne_exhausted (attempts : Nat → AttemptResult) :
    ∀ fuel attempt, 0 < fuel →
      retryLoopGo attempts attempt fuel ≠ LoopResult.exhausted := by
  intro fuel
  induction fuel with
  | zero => intro attempt h; exact absurd h (by simp)
  | succ n ih =>
    intro attempt _
    simp only [retryLoopGo]
    cases attempts attempt with
    | success payload => simp
    | httpStatus code =>
      by_cases hauth : code = 401 ∨ code = 403
      · simp [hauth]
      · by_cases h429 : code = 429
        · simp only [if_neg hauth, if_pos h429]
          by_cases hf : 0 < n
          · simp only [if_pos hf]
            exact ih _ hf
          · simp [hf]
        · by_cases h5xx : 500 ≤ code ∧ code < 600
          · simp only [if_neg hauth, if_neg h429, if_pos h5xx]
            by_cases hf : 0 < n
            · simp only [if_pos hf]
              exact ih _ hf
            · simp [hf]
          · simp [hauth, h429, h5xx]
    | networkError =>
      by_cases hf : 0 < n
      · simp only [if_pos hf]
        exact ih _ hf
      · simp [hf]

/-!
Claim theorems.
-/

/-- C1 (code_bug): the claim says every unsuccessful refresh increments
the per-credential failure counter and suppresses the next automated
attempt until now + min(300, 30 * 2 ^ F).  In the code, a refresh whose
three attempts all fail with HTTP 500 raises from inside the retry loop
and leaves the failure counter and the backoff timer untouched, as the
concrete run below shows; moreover the retry loop can never exit through
the "new_token_data is None" fall-through, so the backoff block at lines
395-405 of the source is unreachable: no transient-failure refresh ever
updates backoff (only the re-auth-failure path does). -/
theorem C1_transient_failure_skips_backoff :
    (refreshToken
      { credentialsCache := [("q.json",
          { accessToken := "a", refreshToken := "r", expiryDate := 0,
            resourceUrl := none, metadata := none })],
        refreshFailures := [], nextRefreshAfter := [],
        queuedCredentials := [], unavailableCredentials := [],
        refreshQueue := [] }
      [] "q.json" false
      { attempts := fun _ => .httpStatus 500, reauthResult := none,
        now := 1000 }) =
    (.err,
     { credentialsCache := [("q.json",
         { accessToken := "a", refreshToken := "r", expiryDate := 0,
           resourceUrl := none, metadata := none })],
       refreshFailures := [], nextRefreshAfter := [],
       queuedCredentials := [], unavailableCredentials := [],
       refreshQueue := [] },
     []) ∧
    ∀ attempts : Nat → AttemptResult,
      retryLoop attempts ≠ LoopResult.exhausted := by
  constructor
  · decide
  · intro attempts
    exact retryLoopGo_ne_exhausted attempts MAX_RETRIES 0 (by decide)

/-- C2 (counterexample): a credential that is in the unavailable set but
not in the queued set and not in backoff is NOT dropped by
"_queue_refresh", contrary to the claim: the item is appended to the
queue, the path enters the queued set and the unavailable stamp is
refreshed. -/
theorem C2_counterexample :
    dmem ({ credentialsCache := [], refreshFailures := [],
            nextRefreshAfter := [], queuedCredentials := [],
            unavailableCredentials := [("q.json", 0)], refreshQueue := [] }
          : AuthState).unavailableCredentials "q.json" = true ∧
    ({ credentialsCache := [], refreshFailures := [],
       nextRefreshAfter := [], queuedCredentials := [],
       unavailableCredentials := [("q.json", 0)], refreshQueue := [] }
     : AuthState).queuedCredentials.contains "q.json" = false ∧
    queueRefresh
      { credentialsCache := [], refreshFailures := [],
        nextRefreshAfter := [], queuedCredentials := [],
        unavailableCredentials := [("q.json", 0)], refreshQueue := [] }
      "q.json" false false 10 =
    { credentialsCache := [], refreshFailures := [], nextRefreshAfter := [],
      queuedCredentials := ["q.json"],
      unavailableCredentials := [("q.json", 10)],
      refreshQueue := [("q.json", false, false)] } := by decide

/-- C2 (amended): the enqueue is a silent no-op when needs_reauth is
false and the credential is inside its backoff window, and is dropped
when the credential is already in the queued set; membership in the
unavailable set alone does not drop the call: in every remaining case
the credential is appended to the queue, added to the queued set, and
stamped unavailable at the current time (re-stamping an existing
unavailable entry). -/
theorem C2_amended_admission (st : AuthState) (path : String)
    (force needsReauth : Bool) (now : Nat) :
    (needsReauth = false → inBackoff st path now = true →
      queueRefresh st path force needsReauth now = st) ∧
    ((needsReauth = true ∨ inBackoff st path now = false) →
      st.queuedCredentials.contains path = true →
      queueRefresh st path force needsReauth now = st) ∧
    ((needsReauth = true ∨ inBackoff st path now = false) →
      st.queuedCredentials.contains path = false →
      queueRefresh st path force needsReauth now =
        { st with
          queuedCredentials := st.queuedCredentials ++ [path],
          unavailableCredentials := dset st.unavailableCredentials path now,
          refreshQueue := st.refreshQueue ++ [(path, force, needsReauth)] }) := by
  refine ⟨?_, ?_, ?_⟩
  · intro h1 h2
    simp [queueRefresh, h1, h2]
  · intro h1 h2
    have h2' : path ∈ st.queuedCredentials := by simpa using h2
    rcases h1 with h1 | h1 <;> simp [queueRefresh, h1, h2']
  · intro h1 h2
    have h2' : path ∉ st.queuedCredentials := by simpa using h2
    rcases h1 with h1 | h1 <;> simp [queueRefresh, h1, h2']

/-- Witness for C2 amended at a concrete state: a fresh credential is
enqueued and stamped unavailable. -/
theorem C2_amended_admission_witness :
    queueRefresh
      { credentialsCache := [], refreshFailures := [],
        nextRefreshAfter := [], queuedCredentials := [],
        unavailableCredentials := [], refreshQueue := [] }
      "q.json" false false 7 =
    { credentialsCache := [], refreshFailures := [], nextRefreshAfter := [],
      queuedCredentials := ["q.json"],
      unavailableCredentials := [("q.json", 7)],
      refreshQueue := [("q.json", false, false)] } :=
  (C2_amended_admission
      { credentialsCache := [], refreshFailures := [],
        nextRefreshAfter := [], queuedCredentials := [],
        unavailableCredentials := [], refreshQueue := [] }
      "q.json" false false 7).2.2 (by decide) (by decide)

/-- C4 (confirmed): a credential marked unavailable at time t is reaped
by "is_credential_available" as soon as now - t exceeds the TTL of 300
seconds: the entry is removed from the unavailable set and the check
returns true; a credential with no unavailable entry always gets true
with the state unchanged. -/
theorem C4_ttl_reaping (st : AuthState) (path : String) (now : Nat)
    (hnd : (st.unavailableCredentials.map Prod.fst).Nodup) :
    (dget st.unavailableCredentials path = none →
      isCredentialAvailable st path now = (true, st)) ∧
    (∀ t, dget st.unavailableCredentials path = some t →
      unavailableTtlSeconds < now - t →
      (isCredentialAvailable st path now).1 = true ∧
      dget (isCredentialAvailable st path now).2.unavailableCredentials path
        = none) := by
  constructor
  · intro h
    simp [isCredentialAvailable, h]
  · intro t h httl
    simp only [isCredentialAvailable, h]
    simp only [if_pos httl]
    exact ⟨by simp, dget_dpop_self hnd path⟩

/-- Witness for C4 at a concrete state: an entry stamped at time 0 is
reaped at time 301. -/
theorem C4_ttl_reaping_witness :
    (isCredentialAvailable
      { credentialsCache := [], refreshFailures := [], nextRefreshAfter := [],
        queuedCredentials := [], unavailableCredentials := [("q.json", 0)],
        refreshQueue := [] } "q.json" 301).1 = true ∧
    dget (isCredentialAvailable
      { credentialsCache := [], refreshFailures := [], nextRefreshAfter := [],
        queuedCredentials := [], unavailableCredentials := [("q.json", 0)],
        refreshQueue := [] } "q.json" 301).2.unavailableCredentials "q.json"
      = none :=
  (C4_ttl_reaping
      { credentialsCache := [], refreshFailures := [], nextRefreshAfter := [],
        queuedCredentials := [], unavailableCredentials := [("q.json", 0)],
        refreshQueue := [] } "q.json" 301 (by decide)).2 0 (by decide)
    (by decide)

/-- C9 (confirmed): saving a credential whose metadata carries
loaded_from_env performs no file write — the filesystem is returned
unchanged, so every path keeps its on-disk content — while the in-memory
cache entry for the path is still updated to the new value. -/
theorem C9_env_save_noop (st : AuthState) (fs : FileSystem) (path : String)
    (creds : Creds)
    (h : (creds.metadata.map (·.loadedFromEnv)).getD false = true) :
    (saveCredentials st fs path creds).2 = fs ∧
    dget (saveCredentials st fs path creds).1.credentialsCache path
      = some creds := by
  simp only [saveCredentials, if_pos h]
  exact ⟨by simp, dget_dset_self _ _ _⟩

/-- Witness for C9 at a concrete env-sourced credential. -/
theorem C9_env_save_noop_witness :
    (saveCredentials
      { credentialsCache := [], refreshFailures := [], nextRefreshAfter := [],
        queuedCredentials := [], unavailableCredentials := [],
        refreshQueue := [] }
      [("other.json",
        { accessToken := "x", refreshToken := "y", expiryDate := 5,
          resourceUrl := none, metadata := none })]
      "env://qwen_code/1"
      { accessToken := "a", refreshToken := "r", expiryDate := 9,
        resourceUrl := none,
        metadata := some
          { email := some "env-user-1", lastCheckTimestamp := 3,
            loadedFromEnv := true } }).2 =
      [("other.json",
        { accessToken := "x", refreshToken := "y", expiryDate := 5,
          resourceUrl := none, metadata := none })] ∧
    dget (saveCredentials
      { credentialsCache := [], refreshFailures := [], nextRefreshAfter := [],
        queuedCredentials := [], unavailableCredentials := [],
        refreshQueue := [] }
      [("other.json",
        { accessToken := "x", refreshToken := "y", expiryDate := 5,
          resourceUrl := none, metadata := none })]
      "env://qwen_code/1"
      { accessToken := "a", refreshToken := "r", expiryDate := 9,
        resourceUrl := none,
        metadata := some
          { email := some "env-user-1", lastCheckTimestamp := 3,
            loadedFromEnv := true } }).1.credentialsCache "env://qwen_code/1"
      = some
        { accessToken := "a", refreshToken := "r", expiryDate := 9,
          resourceUrl := none,
          metadata := some
            { email := some "env-user-1", lastCheckTimestamp := 3,
              loadedFromEnv := true } } :=
  C9_env_save_noop _ _ _ _ (by decide)

/-- C10 (confirmed): for a credential identifier that is not the path of
an existing file — including the path of a deleted credential file —
"get_api_details" does not raise: it returns the default base URL
together with the identifier itself, verbatim, as the access token, and
changes nothing. -/
theorem C10_api_key_passthrough (st : AuthState) (fs : FileSystem)
    (envv : EnvVars) (env : RefreshEnv) (credentialIdentifier : String)
    (h : dget fs credentialIdentifier = none) :
    getApiDetails st fs envv env credentialIdentifier =
      (.ok qwenDefaultBaseUrl credentialIdentifier, st, fs) := by
  simp [getApiDetails, h]

/-- Witness for C10 at a concrete non-file identifier. -/
theorem C10_api_key_passthrough_witness :
    getApiDetails
      { credentialsCache := [], refreshFailures := [], nextRefreshAfter := [],
        queuedCredentials := [], unavailableCredentials := [],
        refreshQueue := [] }
      [("present.json",
        { accessToken := "x", refreshToken := "y", expiryDate := 5,
          resourceUrl := none, metadata := none })]
      { envCreds := fun _ => none }
      { attempts := fun _ => .networkError, reauthResult := none, now := 0 }
      "sk-direct-api-key" =
      (.ok qwenDefaultBaseUrl "sk-direct-api-key",
       { credentialsCache := [], refreshFailures := [], nextRefreshAfter := [],
         queuedCredentials := [], unavailableCredentials := [],
         refreshQueue := [] },
       [("present.json",
         { accessToken := "x", refreshToken := "y", expiryDate := 5,
           resourceUrl := none, metadata := none })]) :=
  C10_api_key_passthrough _ _ _ _ _ (by decide)

/-- When the credential is cached and the refresh is forced or the token
is expired, "_refresh_token" runs its body on the cached document. -/
theorem refreshToken_proceeds (st : AuthState) (fs : FileSystem)
    (path : String) (force : Bool) (env : RefreshEnv) (c : Creds)
    (hc : dget st.credentialsCache path = some c)
    (hcond : force = true ∨ isTokenExpired c env.now = true) :
    refreshToken st fs path force env = refreshTokenBody st fs path env c := by
  unfold refreshToken
  simp only [hc]
  have hno : ¬(¬force = true ∧ ¬isTokenExpired c env.now = true) := by
    rcases hcond with h | h <;> simp [h]
  rw [if_neg hno]

/-- C5 (counterexample): a schedule in which caller 1 calls
execute_reauth for the same reauth id while the flow of caller 0 is in
flight.  Caller 1 does not join the in-flight task, contrary to the
claim: it waits on the global lock and, once caller 0 has finished and
released, starts a second flow of its own — two flows started, zero
joins. -/
theorem C5_counterexample :
    (runCoord [.call 0 "QWEN_CODE:q.json", .acquire 0,
               .call 1 "QWEN_CODE:q.json"]).phase 0 =
      .running "QWEN_CODE:q.json" ∧
    (runCoord [.call 0 "QWEN_CODE:q.json", .acquire 0,
               .call 1 "QWEN_CODE:q.json"]).phase 1 =
      .waitingLock "QWEN_CODE:q.json" ∧
    (runCoord [.call 0 "QWEN_CODE:q.json", .acquire 0,
               .call 1 "QWEN_CODE:q.json", .finish 0, .acquire 1,
               .finish 1]).flowsStarted = 2 ∧
    (runCoord [.call 0 "QWEN_CODE:q.json", .acquire 0,
               .call 1 "QWEN_CODE:q.json", .finish 0, .acquire 1,
               .finish 1]).joinCount = 0 := by decide

/-- C5 (amended): over every schedule of the coordinator model, at most
one interactive flow is active at any moment — the flow runs entirely
under the process-wide lock — and the join branch never executes: a
second caller for the same reauth id waits for the lock and then starts
a new flow of its own, because the task map is always empty when the
lock is acquired.  The default timeout of execute_reauth is 300 s. -/
theorem C5_amended_serialization (events : List CoordEvent) :
    (runningCallers (runCoord events)).length ≤ 1 ∧
    (runCoord events).joinCount = 0 ∧
    defaultReauthTimeout = 300 :=
  ⟨runningCallers_length_le_one (coordInv_runCoord events),
   (coordInv_runCoord events).1, rfl⟩

/-- C6 (counterexample): a token response whose access_token is empty is
rejected (the refresh raises and nothing is written to disk), but the
per-credential failure counter and the backoff timer are left unchanged,
contrary to the claim that such a refresh is counted as a failure.  The
in-place mutation of the cached document is visible in the cache. -/
theorem C6_counterexample :
    refreshToken
      { credentialsCache := [("q.json",
          { accessToken := "a", refreshToken := "r", expiryDate := 0,
            resourceUrl := none, metadata := none })],
        refreshFailures := [], nextRefreshAfter := [],
        queuedCredentials := [], unavailableCredentials := [],
        refreshQueue := [] }
      [] "q.json" false
      { attempts := fun _ => .success
          { accessToken := "", refreshToken := some "r2",
            expiresIn := 3600, resourceUrl := none },
        reauthResult := none, now := 50 } =
    (.err,
     { credentialsCache := [("q.json",
         { accessToken := "", refreshToken := "r2", expiryDate := 3650000,
           resourceUrl := none,
           metadata := some
             { email := none, lastCheckTimestamp := 50,
               loadedFromEnv := false } })],
       refreshFailures := [], nextRefreshAfter := [],
       queuedCredentials := [], unavailableCredentials := [],
       refreshQueue := [] },
     []) := by decide

/-- C6 (amended): if after a token-endpoint response the resulting
access_token or refresh_token is empty, the refresh is rejected — it
raises and the credential is not persisted to disk — but it is NOT
counted as a backoff failure: the per-credential failure counter and
the backoff timer are left exactly as they were. -/
theorem C6_amended_validation (st : AuthState) (fs : FileSystem)
    (path : String) (force : Bool) (env : RefreshEnv)
    (payload : TokenPayload) (c : Creds)
    (hc : dget st.credentialsCache path = some c)
    (hrt : ¬c.refreshToken = "")
    (hcond : force = true ∨ isTokenExpired c env.now = true)
    (hl : retryLoop env.attempts = .gotData payload)
    (hbad : payload.accessToken = "" ∨
      payload.refreshToken.getD c.refreshToken = "") :
    (refreshToken st fs path force env).1 = .err ∧
    (refreshToken st fs path force env).2.1.refreshFailures =
      st.refreshFailures ∧
    (refreshToken st fs path force env).2.1.nextRefreshAfter =
      st.nextRefreshAfter ∧
    (refreshToken st fs path force env).2.2 = fs := by
  rw [refreshToken_proceeds st fs path force env c hc hcond]
  unfold refreshTokenBody
  rw [if_neg hrt]
  simp only [hl]
  have hval : (applyPayload c payload env.now).accessToken = "" ∨
      (applyPayload c payload env.now).refreshToken = "" := by
    rcases hbad with h | h
    · exact Or.inl (by simpa [applyPayload] using h)
    · exact Or.inr (by simpa [applyPayload] using h)
  rw [if_pos hval]
  exact ⟨rfl, rfl, rfl, rfl⟩

/-- Witness for C6 amended: an empty refresh_token in the payload at a
concrete state. -/
theorem C6_amended_validation_witness :
    (refreshToken
      { credentialsCache := [("q.json",
          { accessToken := "a", refreshToken := "r", expiryDate := 0,
            resourceUrl := none, metadata := none })],
        refreshFailures := [("q.json", 2)],
        nextRefreshAfter := [("q.json", 40)],
        queuedCredentials := [], unavailableCredentials := [],
        refreshQueue := [] }
      [] "q.json" false
      { attempts := fun _ => .success
          { accessToken := "a2", refreshToken := some "",
            expiresIn := 3600, resourceUrl := none },
        reauthResult := none, now := 50 }).1 = .err ∧
    (refreshToken
      { credentialsCache := [("q.json",
          { accessToken := "a", refreshToken := "r", expiryDate := 0,
            resourceUrl := none, metadata := none })],
        refreshFailures := [("q.json", 2)],
        nextRefreshAfter := [("q.json", 40)],
        queuedCredentials := [], unavailableCredentials := [],
        refreshQueue := [] }
      [] "q.json" false
      { attempts := fun _ => .success
          { accessToken := "a2", refreshToken := some "",
            expiresIn := 3600, resourceUrl := none },
        reauthResult := none, now := 50 }).2.1.refreshFailures =
      [("q.json", 2)] ∧
    (refreshToken
      { credentialsCache := [("q.json",
          { accessToken := "a", refreshToken := "r", expiryDate := 0,
            resourceUrl := none, metadata := none })],
        refreshFailures := [("q.json", 2)],
        nextRefreshAfter := [("q.json", 40)],
        queuedCredentials := [], unavailableCredentials := [],
        refreshQueue := [] }
      [] "q.json" false
      { attempts := fun _ => .success
          { accessToken := "a2", refreshToken := some "",
            expiresIn := 3600, resourceUrl := none },
        reauthResult := none, now := 50 }).2.1.nextRefreshAfter =
      [("q.json", 40)] ∧
    (refreshToken
      { credentialsCache := [("q.json",
          { accessToken := "a", refreshToken := "r", expiryDate := 0,
            resourceUrl := none, metadata := none })],
        refreshFailures := [("q.json", 2)],
        nextRefreshAfter := [("q.json", 40)],
        queuedCredentials := [], unavailableCredentials := [],
        refreshQueue := [] }
      [] "q.json" false
      { attempts := fun _ => .success
          { accessToken := "a2", refreshToken := some "",
            expiresIn := 3600, resourceUrl := none },
        reauthResult := none, now := 50 }).2.2 = [] :=
  C6_amended_validation
    { credentialsCache := [("q.json",
        { accessToken := "a", refreshToken := "r", expiryDate := 0,
          resourceUrl := none, metadata := none })],
      refreshFailures := [("q.json", 2)],
      nextRefreshAfter := [("q.json", 40)],
      queuedCredentials := [], unavailableCredentials := [],
      refreshQueue := [] }
    [] "q.json" false
    { attempts := fun _ => .success
        { accessToken := "a2", refreshToken := some "",
          expiresIn := 3600, resourceUrl := none },
      reauthResult := none, now := 50 }
    { accessToken := "a2", refreshToken := some "",
      expiresIn := 3600, resourceUrl := none }
    { accessToken := "a", refreshToken := "r", expiryDate := 0,
      resourceUrl := none, metadata := none }
    (by decide) (by decide) (Or.inr (by decide)) (by decide)
    (Or.inr (by decide))

/-- C7 (counterexample): a successful non-forced refresh CAN reduce the
stored expiry: a credential expiring in 7200 s is inside the 3-hour
refresh buffer, so the refresh proceeds, and a token response with
expires_in = 3600 rewrites expiry_date from 7200000 down to 3650000
(now = 50). -/
theorem C7_counterexample :
    (refreshToken
      { credentialsCache := [("q.json",
          { accessToken := "a", refreshToken := "r", expiryDate := 7200000,
            resourceUrl := none, metadata := none })],
        refreshFailures := [], nextRefreshAfter := [],
        queuedCredentials := [], unavailableCredentials := [],
        refreshQueue := [] }
      [] "q.json" false
      { attempts := fun _ => .success
          { accessToken := "a2", refreshToken := some "r2",
            expiresIn := 3600, resourceUrl := none },
        reauthResult := none, now := 50 }).1 =
      .ok
        { accessToken := "a2", refreshToken := "r2", expiryDate := 3650000,
          resourceUrl := none,
          metadata := some
            { email := none, lastCheckTimestamp := 50,
              loadedFromEnv := false } } ∧
    (3650000 : Nat) < 7200000 := by decide

/-- C7 (amended): the stored expiry is non-decreasing across successful
non-forced refreshes provided the token response grants at least the
refresh buffer (10800 s) of lifetime; a forced refresh, or a response
with a smaller expires_in than the remaining lifetime, may reduce it. -/
theorem C7_expiry_monotone_with_buffer (st : AuthState) (fs : FileSystem)
    (path : String) (env : RefreshEnv) (c c' : Creds) (payload : TokenPayload)
    (hc : dget st.credentialsCache path = some c)
    (hl : retryLoop env.attempts = .gotData payload)
    (he : REFRESH_EXPIRY_BUFFER_SECONDS ≤ payload.expiresIn)
    (hr : (refreshToken st fs path false env).1 = .ok c') :
    c.expiryDate ≤ c'.expiryDate := by
  by_cases hexp : isTokenExpired c env.now
  · rw [refreshToken_proceeds st fs path false env c hc (Or.inr hexp)] at hr
    unfold refreshTokenBody at hr
    by_cases hrt : c.refreshToken = ""
    · rw [if_pos hrt] at hr
      simp at hr
    · rw [if_neg hrt] at hr
      simp only [hl] at hr
      by_cases hval : (applyPayload c payload env.now).accessToken = "" ∨
          (applyPayload c payload env.now).refreshToken = ""
      · rw [if_pos hval] at hr
        simp at hr
      · rw [if_neg hval] at hr
        simp only at hr
        have hc' : applyPayload c payload env.now = c' := by
          simpa using hr
        rw [← hc']
        have h1 : c.expiryDate <
            (env.now + REFRESH_EXPIRY_BUFFER_SECONDS) * 1000 := by
          simpa [isTokenExpired] using hexp
        have h2 : (env.now + REFRESH_EXPIRY_BUFFER_SECONDS) * 1000 ≤
            (env.now + payload.expiresIn) * 1000 :=
          Nat.mul_le_mul_right _ (Nat.add_le_add_left he _)
        simp only [applyPayload]
        omega
  · have heq : refreshToken st fs path false env = (.ok c, st, fs) := by
      unfold refreshToken
      simp only [hc]
      rw [if_pos ⟨by simp, hexp⟩]
    rw [heq] at hr
    simp at hr
    rw [← hr]

/-- Witness for C7 amended: a response granting 10800 s raises the
expiry of a credential that had 7200 s left. -/
theorem C7_expiry_monotone_with_buffer_witness :
    ({ accessToken := "a", refreshToken := "r", expiryDate := 7200000,
       resourceUrl := none, metadata := none } : Creds).expiryDate ≤
    ({ accessToken := "a2", refreshToken := "r2", expiryDate := 10800000,
       resourceUrl := none,
       metadata := some
         { email := none, lastCheckTimestamp := 0,
           loadedFromEnv := false } } : Creds).expiryDate :=
  C7_expiry_monotone_with_buffer
    { credentialsCache := [("q.json",
        { accessToken := "a", refreshToken := "r", expiryDate := 7200000,
          resourceUrl := none, metadata := none })],
      refreshFailures := [], nextRefreshAfter := [],
      queuedCredentials := [], unavailableCredentials := [],
      refreshQueue := [] }
    [] "q.json"
    { attempts := fun _ => .success
        { accessToken := "a2", refreshToken := some "r2",
          expiresIn := 10800, resourceUrl := none },
      reauthResult := none, now := 0 }
    { accessToken := "a", refreshToken := "r", expiryDate := 7200000,
      resourceUrl := none, metadata := none }
    { accessToken := "a2", refreshToken := "r2", expiryDate := 10800000,
      resourceUrl := none,
      metadata := some
        { email := none, lastCheckTimestamp := 0, loadedFromEnv := false } }
    { accessToken := "a2", refreshToken := some "r2",
      expiresIn := 10800, resourceUrl := none }
    (by decide) (by decide) (by decide) (by decide)

/-- C8 (counterexample): CredentialManager._discover_api_keys registers
the environment key GEMINI_API_KEY_2 under the provider name "gemini_2"
— the replace of "_API_KEY" keeps the numeric suffix — and not under
"gemini" as the claim states. -/
theorem C8_counterexample :
    discoverApiKeys [("GEMINI_API_KEY_2", "sk-abc")] =
      [("gemini_2", ["env://GEMINI_API_KEY_2"])] ∧
    dget (discoverApiKeys [("GEMINI_API_KEY_2", "sk-abc")]) "gemini" =
      none := by decide

/-- C8 (amended): for an environment key of the form
PROVIDER_API_KEY_N, the api_keys loop of proxy_app/main.py registers the
key under the provider name before "_API_KEY", lower-cased, as the claim
states; but CredentialManager._discover_api_keys deletes the substring
"_API_KEY" and registers the key under "provider_n", a different
provider name. -/
theorem C8_amended_discovery (p n : String)
    (hin : apiKeyIn (p ++ "_API_KEY_" ++ n) = true)
    (hne : p ++ "_API_KEY_" ++ n ≠ "PROXY_API_KEY")
    (hb : beforeSeq "_API_KEY".data (p ++ "_API_KEY_" ++ n).data = p.data)
    (hrm : removeSeq "_API_KEY".data (p ++ "_API_KEY_" ++ n).data =
      (p ++ "_" ++ n).data) :
    mainDiscoverProvider (p ++ "_API_KEY_" ++ n) = some (pyLower p) ∧
    cmDiscoverProvider (p ++ "_API_KEY_" ++ n) =
      some (pyLower (p ++ "_" ++ n)) := by
  constructor
  · rw [mainDiscoverProvider, if_pos ⟨hin, hne⟩, hb]
  · rw [cmDiscoverProvider, if_pos ⟨hin, hne⟩, hrm]

/-- Witness for C8 amended at GEMINI_API_KEY_2. -/
theorem C8_amended_discovery_witness :
    mainDiscoverProvider ("GEMINI" ++ "_API_KEY_" ++ "2") =
      some (pyLower "GEMINI") ∧
    cmDiscoverProvider ("GEMINI" ++ "_API_KEY_" ++ "2") =
      some (pyLower ("GEMINI" ++ "_" ++ "2")) :=
  C8_amended_discovery "GEMINI" "2" (by decide) (by decide) (by decide)
    (by decide)

/-- C3 (counterexample): the worker pops an item with force = true while
the cached credential is not expired; contrary to the claim it does NOT
invoke refresh — the not-expired check ignores force — and simply marks
the credential available and completes the item through the skip
branch. -/
theorem C3_counterexample :
    isTokenExpired
      { accessToken := "a", refreshToken := "r", expiryDate := 999999999999,
        resourceUrl := none, metadata := none } 0 = false ∧
    processQueueItem
      { credentialsCache := [("q.json",
          { accessToken := "a", refreshToken := "r",
            expiryDate := 999999999999, resourceUrl := none,
            metadata := none })],
        refreshFailures := [], nextRefreshAfter := [],
        queuedCredentials := ["q.json"],
        unavailableCredentials := [("q.json", 5)], refreshQueue := [] }
      [] "q.json" true false 0 =
      .completed
        { credentialsCache := [("q.json",
            { accessToken := "a", refreshToken := "r",
              expiryDate := 999999999999, resourceUrl := none,
              metadata := none })],
          refreshFailures := [], nextRefreshAfter := [],
          queuedCredentials := [], unavailableCredentials := [],
          refreshQueue := [] }
        [] := by decide

/-- C3 (amended): when the worker pops an item and a cached credential
exists that is not expired — regardless of force, which the check
ignores — it completes the item without invoking refresh, and the
finally cleanup leaves the credential available: removed from the
unavailable set and from the queued set.  In every other case (expired
cached credential, or cache miss) the worker, already holding the
per-credential lock, calls "_refresh_token" or "_load_credentials",
each of which re-acquires that same non-reentrant lock: the worker
blocks forever, the refresh body never runs, the item never completes,
and the state is left exactly as it was — the credential stays queued
and unavailable. -/
theorem C3_amended_worker (st : AuthState) (fs : FileSystem)
    (path : String) (force nr : Bool) (now : Nat)
    (hnd : (st.unavailableCredentials.map Prod.fst).Nodup) :
    (∀ c, dget st.credentialsCache path = some c →
      isTokenExpired c now = false →
      (processQueueItem st fs path force nr now).isCompleted = true ∧
      dget (processQueueItem st fs path force nr
          now).state.unavailableCredentials path = none ∧
      (processQueueItem st fs path force nr now).state.queuedCredentials =
        st.queuedCredentials.erase path) ∧
    (∀ c, dget st.credentialsCache path = some c →
      isTokenExpired c now = true →
      processQueueItem st fs path force nr now = .deadlocked st fs) ∧
    (dget st.credentialsCache path = none →
      processQueueItem st fs path force nr now = .deadlocked st fs) := by
  cases hdc : dget st.credentialsCache path with
  | some c0 =>
    refine ⟨?_, ?_, ?_⟩
    · intro c hcc hexp
      injection hcc with hcc
      subst hcc
      have hnexp : ¬isTokenExpired c0 now = true := by simp [hexp]
      simp only [processQueueItem, hdc]
      rw [if_pos hnexp]
      refine ⟨rfl, ?_, rfl⟩
      simp only [queueItemCleanup, WorkerOutcome.state]
      exact dget_dpop_self (dkeysNodup_dpop path hnd) path
    · intro c hcc hexp
      injection hcc with hcc
      subst hcc
      simp only [processQueueItem, hdc]
      rw [if_neg (not_not_intro hexp)]
    · intro hnone
      cases hnone
  | none =>
    refine ⟨?_, ?_, ?_⟩
    · intro c hcc
      cases hcc
    · intro c hcc
      cases hcc
    · intro _
      simp [processQueueItem, hdc]

/-- Witness for C3 amended at concrete states: an unexpired cached
credential completes and ends available; an expired one deadlocks the
worker with the state unchanged. -/
theorem C3_amended_worker_witness :
    ((processQueueItem
      { credentialsCache := [("q.json",
          { accessToken := "a", refreshToken := "r",
            expiryDate := 999999999999, resourceUrl := none,
            metadata := none })],
        refreshFailures := [], nextRefreshAfter := [],
        queuedCredentials := ["q.json"],
        unavailableCredentials := [("q.json", 5)], refreshQueue := [] }
      [] "q.json" false false 0).isCompleted = true ∧
     dget (processQueueItem
      { credentialsCache := [("q.json",
          { accessToken := "a", refreshToken := "r",
            expiryDate := 999999999999, resourceUrl := none,
            metadata := none })],
        refreshFailures := [], nextRefreshAfter := [],
        queuedCredentials := ["q.json"],
        unavailableCredentials := [("q.json", 5)], refreshQueue := [] }
      [] "q.json" false false 0).state.unavailableCredentials "q.json" =
       none ∧
     (processQueueItem
      { credentialsCache := [("q.json",
          { accessToken := "a", refreshToken := "r",
            expiryDate := 999999999999, resourceUrl := none,
            metadata := none })],
        refreshFailures := [], nextRefreshAfter := [],
        queuedCredentials := ["q.json"],
        unavailableCredentials := [("q.json", 5)], refreshQueue := [] }
      [] "q.json" false false 0).state.queuedCredentials =
       (["q.json"] : List String).erase "q.json") ∧
    processQueueItem
      { credentialsCache := [("q.json",
          { accessToken := "a", refreshToken := "r", expiryDate := 0,
            resourceUrl := none, metadata := none })],
        refreshFailures := [], nextRefreshAfter := [],
        queuedCredentials := ["q.json"],
        unavailableCredentials := [("q.json", 5)], refreshQueue := [] }
      [] "q.json" false false 0 =
      .deadlocked
        { credentialsCache := [("q.json",
            { accessToken := "a", refreshToken := "r", expiryDate := 0,
              resourceUrl := none, metadata := none })],
          refreshFailures := [], nextRefreshAfter := [],
          queuedCredentials := ["q.json"],
          unavailableCredentials := [("q.json", 5)], refreshQueue := [] }
        [] :=
  ⟨(C3_amended_worker
      { credentialsCache := [("q.json",
          { accessToken := "a", refreshToken := "r",
            expiryDate := 999999999999, resourceUrl := none,
            metadata := none })],
        refreshFailures := [], nextRefreshAfter := [],
        queuedCredentials := ["q.json"],
        unavailableCredentials := [("q.json", 5)], refreshQueue := [] }
      [] "q.json" false false 0 (by decide)).1
      { accessToken := "a", refreshToken := "r",
        expiryDate := 999999999999, resourceUrl := none, metadata := none }
      (by decide) (by decide),
   (C3_amended_worker
      { credentialsCache := [("q.json",
          { accessToken := "a", refreshToken := "r", expiryDate := 0,
            resourceUrl := none, metadata := none })],
        refreshFailures := [], nextRefreshAfter := [],
        queuedCredentials := ["q.json"],
        unavailableCredentials := [("q.json", 5)], refreshQueue := [] }
      [] "q.json" false false 0 (by decide)).2.1
      { accessToken := "a", refreshToken := "r", expiryDate := 0,
        resourceUrl := none, metadata := none }
      (by decide) (by decide)⟩


end ApiKeyProxy
